import Mathlib

/-!
Verification of the lemurs login manager's authentication-to-session-launch
pipeline, shallowly embedded from the Rust source:
  - `src/auth/pam.rs`: `open_session`, the `conversation` callback, and the
    `PamAuthenticator` drop behaviour;
  - `src/post_login/mod.rs`: `lower_command_permissions_to_user` (privilege
    drop) and `get_envs`;
  - `src/post_login/x.rs`: `setup_x` (signal-mask handling and the readiness
    wait loop).
Foreign calls (PAM, syscalls, the filesystem) are modelled by oracles giving
their return values; the embedded functions reproduce the source's control
flow over those oracles and additionally record the observable call traces
the claims speak about.
-/

namespace Lemurs

/-! ## Linux-PAM constants (values from the Linux-PAM headers, as re-exported
by the `pam-sys` crate used in `src/auth/pam.rs`). -/

def PAM_SUCCESS : Int := 0
def PAM_BUF_ERR : Int := 5
def PAM_CRED_UNAVAIL : Int := 15
def PAM_CRED_EXPIRED : Int := 16
def PAM_CONV_ERR : Int := 19

/-! ## Conversation callback (`conversation` in `src/auth/pam.rs`, lines 69-128)

Message styles `PAM_PROMPT_ECHO_OFF`, `PAM_PROMPT_ECHO_ON`, `PAM_ERROR_MSG`,
`PAM_TEXT_INFO` are modelled as an inductive; any other style value is
`other`. A `pam_response` whose `resp` pointer is NULL is modelled with
`resp = none`; a strdup'ed string with `resp = some text`. -/

/-- Secrets are byte/character strings; the embedding works with `List Char`. -/
abbrev Secret := List Char

inductive MsgStyle
  | echoOff
  | echoOn
  | errorMsg
  | textInfo
  | other (code : Int)
deriving DecidableEq, Repr

structure PamResponse where
  resp : Option Secret
  retcode : Int
deriving DecidableEq, Repr

/-- Response of the conversation callback to one message, given the current
held password (the `Option<SecretString>` inside `ConvData`). Echo-off and
echo-on prompts receive the held secret if present and a NULL response if it
was already cleared; info and error messages receive a NULL response; any
other style has no answer (the callback aborts). -/
def answerMsg (password : Option Secret) : MsgStyle → Option PamResponse
  | .echoOff => some ⟨password, 0⟩
  | .echoOn => some ⟨password, 0⟩
  | .errorMsg => some ⟨none, 0⟩
  | .textInfo => some ⟨none, 0⟩
  | .other _ => none

/-- The conversation callback over a whole message array: it answers each
message in order and, on encountering a message style it does not know, frees
everything and fails the whole conversation with `PAM_CONV_ERR`. -/
def conversation (password : Option Secret) : List MsgStyle → Except Int (List PamResponse)
  | [] => .ok []
  | m :: rest =>
    match answerMsg password m with
    | none => .error PAM_CONV_ERR
    | some r =>
      match conversation password rest with
      | .error e => .error e
      | .ok rs => .ok (r :: rs)

/-! ## PAM environment harvest (`open_session`, lines 207-227)

Each string returned by `pam_getenvlist` is split at its first `=` via
`str::split_once`; strings lacking `=` are skipped; the pieces are inserted
into a map (`HashMap::insert` overwrites an existing key). The map is
modelled as an insertion-ordered association list. -/

/-- Rust's `str::split_once('=')`: splits at the first `=`, `none` when absent. -/
def splitOnceEq : List Char → Option (Secret × Secret)
  | [] => none
  | c :: rest =>
    if c = '=' then some ([], rest)
    else
      match splitOnceEq rest with
      | none => none
      | some (k, v) => some (c :: k, v)

/-- Insert with overwrite, the observable behaviour of `HashMap::insert`. -/
def insertEnv (m : List (Secret × Secret)) (k v : Secret) : List (Secret × Secret) :=
  if m.any (fun p => p.1 = k) then m.map (fun p => if p.1 = k then (k, v) else p)
  else m ++ [(k, v)]

/-- Body of the harvest loop of `open_session`: split one `pam_getenvlist`
entry at its first `=` and insert the pieces; entries without `=` are skipped. -/
def harvestStep (m : List (Secret × Secret)) (s : Secret) : List (Secret × Secret) :=
  match splitOnceEq s with
  | some (k, v) => insertEnv m k v
  | none => m

/-- The harvest loop of `open_session`: fold every `pam_getenvlist` entry
through `split_once('=')` and insertion. -/
def harvestEnv (envList : List Secret) : List (Secret × Secret) :=
  envList.foldl harvestStep []

/-! ## `open_session` (`src/auth/pam.rs`, lines 131-258) -/

/-- Result of the `uzers::get_user_by_name` NSS lookup. `homeDir`/`shell`
are `none` when the corresponding path is not valid UTF-8 (`to_str`
returning `None`). -/
structure PosixUser where
  uid : Nat
  primaryGid : Nat
  groups : Option (List Nat)
  homeDir : Option String
  shell : Option String
deriving DecidableEq, Repr

/-- Oracle giving the return value of each foreign call `open_session`
makes, in program order. -/
structure PamOracle where
  startRet : Int
  authRet : Int
  acctRet : Int
  setcredRet : Int
  openRet : Int
  envList : List Secret
  user : Option PosixUser
deriving DecidableEq, Repr

/-- The error enumeration `AuthenticationError` of `src/auth/pam.rs`. -/
inductive AuthenticationError
  | PamService (service : String)
  | AccountValidation
  | HomeDirInvalidUtf8
  | ShellInvalidUtf8
  | UsernameNotFound
  | SessionOpen
  | CredUnavailable
  | CredUninitialized
  | CredExpired
  | Other (code : Int)
deriving DecidableEq, Repr

/-- The `PamAuthenticator` value: owns the PAM handle (`handleValid` models
`!handle.is_null()`), the last status, and the conversation data whose held
password is `convPassword`. -/
structure PamAuthenticator where
  handleValid : Bool
  lastStatus : Int
  convPassword : Option Secret
deriving DecidableEq, Repr

/-- The `AuthUserInfo` struct built by `open_session` on full success
(the lower-level PAM variant in `src/auth/pam.rs`, which the spec follows). -/
structure AuthUserInfo where
  authenticator : PamAuthenticator
  username : String
  uid : Nat
  primaryGid : Nat
  allGids : List Nat
  homeDir : String
  shell : String
  pamEnv : List (Secret × Secret)
deriving DecidableEq, Repr

/-- Observable PAM library calls. The calls that may run the conversation
callback record the held password visible to that callback at call time. -/
inductive PamEvent
  | start
  | authenticate (pw : Option Secret)
  | acctMgmt (pw : Option Secret)
  | setcred (pw : Option Secret)
  | openSession (pw : Option Secret)
  | getEnvList
  | pamEnd
deriving DecidableEq, Repr

/-- Dropping a `PamAuthenticator` calls `pam_end` exactly when the handle is
non-null (`Drop for PamAuthenticator`, lines 59-67). -/
def dropAuthenticator (a : PamAuthenticator) : List PamEvent :=
  if a.handleValid then [.pamEnd] else []

/-- Dropping an `AuthUserInfo` drops the `PamAuthenticator` it owns. -/
def dropAuthUserInfo (info : AuthUserInfo) : List PamEvent :=
  dropAuthenticator info.authenticator

/-- Rust's `CString::new` fails iff the string contains an interior NUL. -/
def containsNul (s : String) : Bool :=
  s.toList.any (fun c => c = Char.ofNat 0)

/-- Embedding of `open_session`: returns the function's result together with
the trace of PAM calls it performed, including the `pam_end` emitted by the
drop of the local `PamAuthenticator` on early-return paths. On success the
authenticator is moved into the returned `AuthUserInfo`, so no `pam_end`
appears in the function's own trace. -/
def open_session (username pam_service : String) (password : Secret) (o : PamOracle) :
    Except AuthenticationError AuthUserInfo × List PamEvent :=
  if containsNul username then (.error .UsernameNotFound, [])
  else if containsNul pam_service then (.error (.PamService pam_service), [])
  else if o.startRet = PAM_SUCCESS then
    if o.authRet = PAM_SUCCESS then
      -- password cleared immediately after successful authenticate
      if o.acctRet = PAM_SUCCESS then
        if o.setcredRet = PAM_SUCCESS then
          if o.openRet = PAM_SUCCESS then
            let calls : List PamEvent :=
              [.start, .authenticate (some password), .acctMgmt none, .setcred none,
                .openSession none, .getEnvList]
            match o.user with
            | none => (.error .UsernameNotFound, calls ++ [.pamEnd])
            | some u =>
              match u.homeDir with
              | none => (.error .HomeDirInvalidUtf8, calls ++ [.pamEnd])
              | some home =>
                match u.shell with
                | none => (.error .ShellInvalidUtf8, calls ++ [.pamEnd])
                | some sh =>
                  (.ok
                    { authenticator :=
                        { handleValid := true, lastStatus := PAM_SUCCESS,
                          convPassword := none }
                      username := username
                      uid := u.uid
                      primaryGid := u.primaryGid
                      allGids := u.groups.getD []
                      homeDir := home
                      shell := sh
                      pamEnv := harvestEnv o.envList }, calls)
          else
            (.error .SessionOpen,
              [.start, .authenticate (some password), .acctMgmt none, .setcred none,
                .openSession none, .pamEnd])
        else
          (if o.setcredRet = PAM_CRED_UNAVAIL then (.error .CredUnavailable)
           else if o.setcredRet = PAM_CRED_EXPIRED then (.error .CredExpired)
           else .error (.Other o.setcredRet),
            [.start, .authenticate (some password), .acctMgmt none, .setcred none, .pamEnd])
      else
        (.error .AccountValidation,
          [.start, .authenticate (some password), .acctMgmt none, .pamEnd])
    else
      (.error .AccountValidation, [.start, .authenticate (some password), .pamEnd])
  else
    -- pam_start failed: the handle was never set, so the drop does not run pam_end
    (.error (.PamService pam_service), [.start])

/-- Complete PAM-call trace of one authentication lifecycle: the calls made
by `open_session` followed, on success, by the calls made when the returned
`AuthUserInfo` is eventually dropped. -/
def sessionLifecycleTrace (username pam_service : String) (password : Secret)
    (o : PamOracle) : List PamEvent :=
  match open_session username pam_service password o with
  | (.ok info, tr) => tr ++ dropAuthUserInfo info
  | (.error _, tr) => tr

/-! ## Privilege drop (`lower_command_permissions_to_user`,
`src/post_login/mod.rs`, lines 73-119)

The `pre_exec` closure runs in the forked child before `exec`. It performs
`setgroups(all_gids)`, then `setgid(primary_gid)`, then `setuid(uid)`; each
step's failure short-circuits via `?`, making the closure return an error, in
which case the standard library aborts the child without running `exec`. -/

inductive PrivStep
  | setgroups (gs : List Nat)
  | setgid (g : Nat)
  | setuid (u : Nat)
deriving DecidableEq, Repr

/-- Oracle for the three syscalls: `none` means success, `some e` means
failure with errno description `e`. -/
structure SyscallOracle where
  setgroupsErr : Option String
  setgidErr : Option String
  setuidErr : Option String
deriving DecidableEq, Repr

/-- The full drop sequence for a given identity, in source order. -/
def privSeq (info : AuthUserInfo) : List PrivStep :=
  [.setgroups info.allGids, .setgid info.primaryGid, .setuid info.uid]

/-- Embedding of the `pre_exec` closure: the result it returns to the spawn
machinery, together with the sequence of syscalls actually attempted. -/
def preExecDrop (info : AuthUserInfo) (o : SyscallOracle) :
    Except String Unit × List PrivStep :=
  match o.setgroupsErr with
  | some e => (.error ("Failed to setgroups: " ++ e), [.setgroups info.allGids])
  | none =>
    match o.setgidErr with
    | some e =>
      (.error ("Failed to setgid: " ++ e),
        [.setgroups info.allGids, .setgid info.primaryGid])
    | none =>
      match o.setuidErr with
      | some e =>
        (.error ("Failed to setuid: " ++ e),
          [.setgroups info.allGids, .setgid info.primaryGid, .setuid info.uid])
      | none => (.ok (), [.setgroups info.allGids, .setgid info.primaryGid, .setuid info.uid])

/-- The target program is executed in the child iff the `pre_exec` hook
returned `Ok` (a failing hook aborts the child before `exec`). -/
def childExecutesTarget (info : AuthUserInfo) (o : SyscallOracle) : Bool :=
  match (preExecDrop info o).1 with
  | .ok _ => true
  | .error _ => false

/-! ## Display-server launch (`setup_x`, `src/post_login/x.rs`, lines 66-251)

The signal mask is modelled by whether `SIGUSR1` is blocked in the calling
thread: `setup_x` only ever passes the one-element set `{SIGUSR1}` to
`pthread_sigmask` (`SIG_BLOCK`/`SIG_UNBLOCK`), so no other signal's mask bit
is touched by any path. The readiness wait loop is driven by a list of
per-iteration observations. -/

/-- Linux signal number of `SIGUSR1`. -/
def SIGUSR1 : Nat := 10

/-- Outcome of one `libc::poll` call on the signalfd, folded together with
the subsequent `read_signal`: `ready signo` models `POLLIN` plus a
successfully read siginfo with that signal number; `readNone` models `POLLIN`
with `read_signal` yielding nothing (or an unreadable event without
`POLLIN`); `timeout` is `poll` returning 0; `interrupted` is `EINTR`;
`fatal` is any other negative return. -/
inductive PollOutcome
  | ready (signo : Nat)
  | readNone
  | timeout
  | interrupted
  | fatal
deriving DecidableEq, Repr

/-- One iteration of the wait loop: the elapsed milliseconds sampled at the
loop head, the poll outcome, and whether `try_wait` observes the child
already exited at the end of the iteration. -/
structure LoopEvent where
  elapsedMs : Nat
  poll : PollOutcome
  childExited : Bool
deriving DecidableEq, Repr

inductive LoopResult
  | ready
  | timedOut
  | prematureExit
  | pollFatal
deriving DecidableEq, Repr

/-- The readiness wait loop of `setup_x` (lines 167-234). Returns the loop's
verdict paired with whether the child was killed, or `none` when the given
observations run out with the loop still waiting. `timeoutSecs` is
`config.x11.xserver_timeout_secs`. -/
def xloop (timeoutSecs : Nat) : List LoopEvent → Option (LoopResult × Bool)
  | [] => none
  | ev :: rest =>
    let remaining : Nat :=
      if timeoutSecs = 0 then 1000000
      else if timeoutSecs * 1000 ≤ ev.elapsedMs then 0
      else timeoutSecs * 1000 - ev.elapsedMs
    if remaining = 0 ∧ timeoutSecs ≠ 0 then some (.timedOut, true)
    else
      match ev.poll with
      | .fatal => some (.pollFatal, false)
      | .ready signo =>
        if signo = SIGUSR1 then some (.ready, false)
        else if ev.childExited then some (.prematureExit, false)
        else xloop timeoutSecs rest
      | _ =>
        if ev.childExited then some (.prematureExit, false)
        else xloop timeoutSecs rest

/-- The error enumeration `XSetupError` of `src/post_login/x.rs` (string
payloads carrying errno descriptions are elided). -/
inductive XSetupError
  | DisplayEnvVar
  | HomeEnvVar
  | VTNREnvVar
  | FillingXAuth
  | InvalidUTF8Path
  | XServerStart
  | XServerTimeout
  | XServerPrematureExit
  | SignalMasking
  | SignalFdCreation
  | PollError
deriving DecidableEq, Repr

/-- Oracle for every fallible step of `setup_x`, in program order.
`unblockOk` gives the result of the `pthread_sigmask(SIG_UNBLOCK, ...)`
calls (a failing call leaves the mask unchanged). -/
structure XOracle where
  displayVar : Option String
  vtnrVar : Option String
  homeVar : Option String
  xauthCmdOk : Bool
  xauthPathUtf8 : Bool
  blockOk : Bool
  signalFdOk : Bool
  spawnOk : Bool
  timeoutSecs : Nat
  loopEvents : List LoopEvent
  unblockOk : Bool
deriving DecidableEq, Repr

/-- Observable post-state of `setup_x`: whether `SIGUSR1` ends up blocked in
the calling thread's mask, and whether the X child was killed. -/
structure XState where
  usr1Blocked : Bool
  childKilled : Bool
deriving DecidableEq, Repr

/-- Embedding of `setup_x`: result (success elides the child handle) and
post-state, `none` when the wait loop is still running after the oracle's
observations. `initBlocked` is whether `SIGUSR1` was blocked in the caller's
mask on entry. -/
def setup_x_model (initBlocked : Bool) (o : XOracle) :
    Option (Except XSetupError Unit × XState) :=
  if o.displayVar.isNone then some (.error .DisplayEnvVar, ⟨initBlocked, false⟩)
  else if o.vtnrVar.isNone then some (.error .VTNREnvVar, ⟨initBlocked, false⟩)
  else if o.homeVar.isNone then some (.error .HomeEnvVar, ⟨initBlocked, false⟩)
  else if !o.xauthCmdOk then some (.error .FillingXAuth, ⟨initBlocked, false⟩)
  else if !o.xauthPathUtf8 then some (.error .InvalidUTF8Path, ⟨initBlocked, false⟩)
  else if !o.blockOk then some (.error .SignalMasking, ⟨initBlocked, false⟩)
  else
    -- SIGUSR1 is now blocked
    if !o.signalFdOk then
      -- the source returns here without restoring the mask
      some (.error .SignalFdCreation, ⟨true, false⟩)
    else if !o.spawnOk then
      some (.error .XServerStart, ⟨!o.unblockOk, false⟩)
    else
      match xloop o.timeoutSecs o.loopEvents with
      | none => none
      | some (.ready, _) =>
        if o.unblockOk then some (.ok (), ⟨false, false⟩)
        else some (.error .SignalMasking, ⟨true, false⟩)
      | some (.timedOut, _) => some (.error .XServerTimeout, ⟨!o.unblockOk, true⟩)
      | some (.prematureExit, _) =>
        some (.error .XServerPrematureExit, ⟨!o.unblockOk, false⟩)
      | some (.pollFatal, _) => some (.error .PollError, ⟨!o.unblockOk, false⟩)

/-! ## Environment list (`get_envs`, `src/post_login/mod.rs`, lines 271-359) -/

inductive PostLoginEnvironment
  | Wayland (script_path : String) (env_name : String)
  | Shell
deriving DecidableEq, Repr

/-- One entry of the custom-scripts directory: whether its mode has any
execute bit, and its file name / full path as UTF-8 (`none` when invalid). -/
structure ScriptEntry where
  isExecutable : Bool
  fileName : Option String
  fullPath : Option String
deriving DecidableEq, Repr

/-- Entries contributed by the Wayland sessions directory: `none` models
`read_dir` failing; each element is the `parse_desktop_entry` result
(`Ok (name, exec)` or a skip with a warning). -/
def sessionEntries :
    Option (List (Except String (String × String))) → List (String × PostLoginEnvironment)
  | none => []
  | some entries =>
    entries.foldl
      (fun acc e =>
        match e with
        | .ok (name, exec) => acc ++ [(name, .Wayland exec name)]
        | .error _ => acc)
      []

/-- Entries contributed by the custom scripts directory: non-executable
entries and entries with non-UTF-8 names or paths are skipped. -/
def scriptEnvEntries : Option (List ScriptEntry) → List (String × PostLoginEnvironment)
  | none => []
  | some entries =>
    entries.foldl
      (fun acc e =>
        if e.isExecutable then
          match e.fileName with
          | none => acc
          | some fn =>
            match e.fullPath with
            | none => acc
            | some fp => acc ++ [(fn, .Wayland fp fn)]
        else acc)
      []

/-- The local `envs` of `get_envs` before the emptiness fallback: the TTY
shell entry first when configured, then Wayland session entries, then script
entries. -/
def collectedEnvs (includeTtyShell : Bool)
    (waylandSessions : Option (List (Except String (String × String))))
    (scripts : Option (List ScriptEntry)) : List (String × PostLoginEnvironment) :=
  (if includeTtyShell then [("Terminal", PostLoginEnvironment.Shell)] else []) ++
    sessionEntries waylandSessions ++ scriptEnvEntries scripts

/-- Embedding of `get_envs`: the accumulated entries, with a fallback
`Terminal` entry when that list is empty. -/
def get_envs (includeTtyShell : Bool)
    (waylandSessions : Option (List (Except String (String × String))))
    (scripts : Option (List ScriptEntry)) : List (String × PostLoginEnvironment) :=
  if (collectedEnvs includeTtyShell waylandSessions scripts).isEmpty then
    [("Terminal", PostLoginEnvironment.Shell)]
  else collectedEnvs includeTtyShell waylandSessions scripts

/-! ## Helper lemmas: branch characterization of `open_session` -/

/-- The PAM call sequence of a fully successful `open_session` run. -/
def fullCalls (pw : Secret) : List PamEvent :=
  [.start, .authenticate (some pw), .acctMgmt none, .setcred none,
    .openSession none, .getEnvList]

theorem open_session_nulUser {u s : String} (pw : Secret) (o : PamOracle)
    (h : containsNul u = true) :
    open_session u s pw o = (.error .UsernameNotFound, []) := by
  simp [open_session, h]

theorem open_session_nulService {u s : String} (pw : Secret) (o : PamOracle)
    (hu : containsNul u = false) (hs : containsNul s = true) :
    open_session u s pw o = (.error (.PamService s), []) := by
  simp [open_session, hu, hs]

theorem open_session_startFail {u s : String} (pw : Secret) (o : PamOracle)
    (hu : containsNul u = false) (hs : containsNul s = false)
    (h : o.startRet ≠ PAM_SUCCESS) :
    open_session u s pw o = (.error (.PamService s), [.start]) := by
  simp [open_session, hu, hs, h]

theorem open_session_authFail {u s : String} (pw : Secret) (o : PamOracle)
    (hu : containsNul u = false) (hs : containsNul s = false)
    (h1 : o.startRet = PAM_SUCCESS) (h2 : o.authRet ≠ PAM_SUCCESS) :
    open_session u s pw o =
      (.error .AccountValidation, [.start, .authenticate (some pw), .pamEnd]) := by
  simp [open_session, hu, hs, h1, h2]

theorem open_session_acctFail {u s : String} (pw : Secret) (o : PamOracle)
    (hu : containsNul u = false) (hs : containsNul s = false)
    (h1 : o.startRet = PAM_SUCCESS) (h2 : o.authRet = PAM_SUCCESS)
    (h3 : o.acctRet ≠ PAM_SUCCESS) :
    open_session u s pw o =
      (.error .AccountValidation,
        [.start, .authenticate (some pw), .acctMgmt none, .pamEnd]) := by
  simp [open_session, hu, hs, h1, h2, h3]

theorem open_session_setcredFail {u s : String} (pw : Secret) (o : PamOracle)
    (hu : containsNul u = false) (hs : containsNul s = false)
    (h1 : o.startRet = PAM_SUCCESS) (h2 : o.authRet = PAM_SUCCESS)
    (h3 : o.acctRet = PAM_SUCCESS) (h4 : o.setcredRet ≠ PAM_SUCCESS) :
    open_session u s pw o =
      (if o.setcredRet = PAM_CRED_UNAVAIL then .error .CredUnavailable
       else if o.setcredRet = PAM_CRED_EXPIRED then .error .CredExpired
       else .error (.Other o.setcredRet),
        [.start, .authenticate (some pw), .acctMgmt none, .setcred none, .pamEnd]) := by
  simp [open_session, hu, hs, h1, h2, h3, h4]

theorem open_session_openFail {u s : String} (pw : Secret) (o : PamOracle)
    (hu : containsNul u = false) (hs : containsNul s = false)
    (h1 : o.startRet = PAM_SUCCESS) (h2 : o.authRet = PAM_SUCCESS)
    (h3 : o.acctRet = PAM_SUCCESS) (h4 : o.setcredRet = PAM_SUCCESS)
    (h5 : o.openRet ≠ PAM_SUCCESS) :
    open_session u s pw o =
      (.error .SessionOpen,
        [.start, .authenticate (some pw), .acctMgmt none, .setcred none,
          .openSession none, .pamEnd]) := by
  simp [open_session, hu, hs, h1, h2, h3, h4, h5]

theorem open_session_noUser {u s : String} (pw : Secret) (o : PamOracle)
    (hu : containsNul u = false) (hs : containsNul s = false)
    (h1 : o.startRet = PAM_SUCCESS) (h2 : o.authRet = PAM_SUCCESS)
    (h3 : o.acctRet = PAM_SUCCESS) (h4 : o.setcredRet = PAM_SUCCESS)
    (h5 : o.openRet = PAM_SUCCESS) (h6 : o.user = none) :
    open_session u s pw o = (.error .UsernameNotFound, fullCalls pw ++ [.pamEnd]) := by
  simp [open_session, fullCalls, hu, hs, h1, h2, h3, h4, h5, h6]

theorem open_session_badHome {u s : String} (pw : Secret) (o : PamOracle)
    (usr : PosixUser)
    (hu : containsNul u = false) (hs : containsNul s = false)
    (h1 : o.startRet = PAM_SUCCESS) (h2 : o.authRet = PAM_SUCCESS)
    (h3 : o.acctRet = PAM_SUCCESS) (h4 : o.setcredRet = PAM_SUCCESS)
    (h5 : o.openRet = PAM_SUCCESS) (h6 : o.user = some usr)
    (h7 : usr.homeDir = none) :
    open_session u s pw o = (.error .HomeDirInvalidUtf8, fullCalls pw ++ [.pamEnd]) := by
  simp [open_session, fullCalls, hu, hs, h1, h2, h3, h4, h5, h6, h7]

theorem open_session_badShell {u s : String} (pw : Secret) (o : PamOracle)
    (usr : PosixUser) (home : String)
    (hu : containsNul u = false) (hs : containsNul s = false)
    (h1 : o.startRet = PAM_SUCCESS) (h2 : o.authRet = PAM_SUCCESS)
    (h3 : o.acctRet = PAM_SUCCESS) (h4 : o.setcredRet = PAM_SUCCESS)
    (h5 : o.openRet = PAM_SUCCESS) (h6 : o.user = some usr)
    (h7 : usr.homeDir = some home) (h8 : usr.shell = none) :
    open_session u s pw o = (.error .ShellInvalidUtf8, fullCalls pw ++ [.pamEnd]) := by
  simp [open_session, fullCalls, hu, hs, h1, h2, h3, h4, h5, h6, h7, h8]

theorem open_session_success {u s : String} (pw : Secret) (o : PamOracle)
    (usr : PosixUser) (home sh : String)
    (hu : containsNul u = false) (hs : containsNul s = false)
    (h1 : o.startRet = PAM_SUCCESS) (h2 : o.authRet = PAM_SUCCESS)
    (h3 : o.acctRet = PAM_SUCCESS) (h4 : o.setcredRet = PAM_SUCCESS)
    (h5 : o.openRet = PAM_SUCCESS) (h6 : o.user = some usr)
    (h7 : usr.homeDir = some home) (h8 : usr.shell = some sh) :
    open_session u s pw o =
      (.ok
        { authenticator :=
            { handleValid := true, lastStatus := PAM_SUCCESS, convPassword := none },
          username := u,
          uid := usr.uid,
          primaryGid := usr.primaryGid,
          allGids := usr.groups.getD [],
          homeDir := home,
          shell := sh,
          pamEnv := harvestEnv o.envList }, fullCalls pw) := by
  simp [open_session, fullCalls, hu, hs, h1, h2, h3, h4, h5, h6, h7, h8]

/-- Inversion for the successful exit of `open_session`: a returned
`AuthUserInfo` forces every preceding PAM step to have succeeded, pins the
call trace, and fixes the harvested environment and the owned authenticator. -/
theorem open_session_ok_inv {u s : String} {pw : Secret} {o : PamOracle}
    {info : AuthUserInfo} (hok : (open_session u s pw o).1 = .ok info) :
    containsNul u = false ∧ containsNul s = false ∧
    o.startRet = PAM_SUCCESS ∧ o.authRet = PAM_SUCCESS ∧ o.acctRet = PAM_SUCCESS ∧
    o.setcredRet = PAM_SUCCESS ∧ o.openRet = PAM_SUCCESS ∧
    (open_session u s pw o).2 = fullCalls pw ∧
    info.pamEnv = harvestEnv o.envList ∧
    info.authenticator = ⟨true, PAM_SUCCESS, none⟩ := by
  by_cases hu : containsNul u = true
  · rw [open_session_nulUser pw o hu] at hok; exact absurd hok (by simp)
  rw [Bool.not_eq_true] at hu
  by_cases hs : containsNul s = true
  · rw [open_session_nulService pw o hu hs] at hok; exact absurd hok (by simp)
  rw [Bool.not_eq_true] at hs
  by_cases h1 : o.startRet = PAM_SUCCESS
  case neg => rw [open_session_startFail pw o hu hs h1] at hok; exact absurd hok (by simp)
  by_cases h2 : o.authRet = PAM_SUCCESS
  case neg => rw [open_session_authFail pw o hu hs h1 h2] at hok; exact absurd hok (by simp)
  by_cases h3 : o.acctRet = PAM_SUCCESS
  case neg => rw [open_session_acctFail pw o hu hs h1 h2 h3] at hok; exact absurd hok (by simp)
  by_cases h4 : o.setcredRet = PAM_SUCCESS
  case neg =>
    rw [open_session_setcredFail pw o hu hs h1 h2 h3 h4] at hok
    split_ifs at hok
  by_cases h5 : o.openRet = PAM_SUCCESS
  case neg => rw [open_session_openFail pw o hu hs h1 h2 h3 h4 h5] at hok; exact absurd hok (by simp)
  rcases husr : o.user with _ | usr
  · rw [open_session_noUser pw o hu hs h1 h2 h3 h4 h5 husr] at hok
    exact absurd hok (by simp)
  rcases hhome : usr.homeDir with _ | home
  · rw [open_session_badHome pw o usr hu hs h1 h2 h3 h4 h5 husr hhome] at hok
    exact absurd hok (by simp)
  rcases hshell : usr.shell with _ | sh
  · rw [open_session_badShell pw o usr home hu hs h1 h2 h3 h4 h5 husr hhome hshell] at hok
    exact absurd hok (by simp)
  have heq := open_session_success pw o usr home sh hu hs h1 h2 h3 h4 h5 husr hhome hshell
  rw [heq] at hok
  cases Except.ok.inj hok
  exact ⟨hu, hs, h1, h2, h3, h4, h5, by rw [heq], rfl, rfl⟩

/-- Shape of every `open_session` run that gets past `pam_start`: the trace
is one of five early-error traces, each ending in the drop's `pam_end`, or
the full success trace whose `pam_end` is deferred to the returned value. -/
theorem open_session_shape (u s : String) (pw : Secret) (o : PamOracle)
    (hu : containsNul u = false) (hs : containsNul s = false)
    (h1 : o.startRet = PAM_SUCCESS) :
    (∃ e, open_session u s pw o =
      (.error e, [.start, .authenticate (some pw), .pamEnd])) ∨
    (∃ e, open_session u s pw o =
      (.error e, [.start, .authenticate (some pw), .acctMgmt none, .pamEnd])) ∨
    (∃ e, open_session u s pw o =
      (.error e, [.start, .authenticate (some pw), .acctMgmt none, .setcred none, .pamEnd])) ∨
    (∃ e, open_session u s pw o =
      (.error e, [.start, .authenticate (some pw), .acctMgmt none, .setcred none,
        .openSession none, .pamEnd])) ∨
    (∃ e, open_session u s pw o = (.error e, fullCalls pw ++ [.pamEnd])) ∨
    (∃ info, open_session u s pw o = (.ok info, fullCalls pw) ∧
      info.authenticator.handleValid = true) := by
  by_cases h2 : o.authRet = PAM_SUCCESS
  case neg => exact Or.inl ⟨_, open_session_authFail pw o hu hs h1 h2⟩
  by_cases h3 : o.acctRet = PAM_SUCCESS
  case neg => exact Or.inr (Or.inl ⟨_, open_session_acctFail pw o hu hs h1 h2 h3⟩)
  by_cases h4 : o.setcredRet = PAM_SUCCESS
  case neg =>
    refine Or.inr (Or.inr (Or.inl
      ⟨if o.setcredRet = PAM_CRED_UNAVAIL then .CredUnavailable
        else if o.setcredRet = PAM_CRED_EXPIRED then .CredExpired
        else .Other o.setcredRet, ?_⟩))
    rw [open_session_setcredFail pw o hu hs h1 h2 h3 h4]
    split_ifs <;> rfl
  by_cases h5 : o.openRet = PAM_SUCCESS
  case neg =>
    exact Or.inr (Or.inr (Or.inr (Or.inl ⟨_, open_session_openFail pw o hu hs h1 h2 h3 h4 h5⟩)))
  rcases husr : o.user with _ | usr
  · exact Or.inr (Or.inr (Or.inr (Or.inr (Or.inl
      ⟨_, open_session_noUser pw o hu hs h1 h2 h3 h4 h5 husr⟩))))
  rcases hhome : usr.homeDir with _ | home
  · exact Or.inr (Or.inr (Or.inr (Or.inr (Or.inl
      ⟨_, open_session_badHome pw o usr hu hs h1 h2 h3 h4 h5 husr hhome⟩))))
  rcases hshell : usr.shell with _ | sh
  · exact Or.inr (Or.inr (Or.inr (Or.inr (Or.inl
      ⟨_, open_session_badShell pw o usr home hu hs h1 h2 h3 h4 h5 husr hhome hshell⟩))))
  exact Or.inr (Or.inr (Or.inr (Or.inr (Or.inr
    ⟨_, open_session_success pw o usr home sh hu hs h1 h2 h3 h4 h5 husr hhome hshell, rfl⟩))))

/-- Every event a run of `open_session` can emit: the five PAM-library calls
in their canonical argument form, the environment harvest, and `pam_end`. -/
theorem open_session_trace_mem (u s : String) (pw : Secret) (o : PamOracle) :
    ∀ ev ∈ (open_session u s pw o).2,
      ev = .start ∨ ev = .authenticate (some pw) ∨ ev = .acctMgmt none ∨
      ev = .setcred none ∨ ev = .openSession none ∨ ev = .getEnvList ∨ ev = .pamEnd := by
  intro ev hev
  by_cases hu : containsNul u = true
  · rw [open_session_nulUser pw o hu] at hev; simp at hev
  rw [Bool.not_eq_true] at hu
  by_cases hs : containsNul s = true
  · rw [open_session_nulService pw o hu hs] at hev; simp at hev
  rw [Bool.not_eq_true] at hs
  by_cases h1 : o.startRet = PAM_SUCCESS
  case neg =>
    rw [open_session_startFail pw o hu hs h1] at hev
    simp at hev
    tauto
  rcases open_session_shape u s pw o hu hs h1 with
    ⟨e, heq⟩ | ⟨e, heq⟩ | ⟨e, heq⟩ | ⟨e, heq⟩ | ⟨e, heq⟩ | ⟨i, heq, _⟩ <;>
    rw [heq] at hev <;> simp [fullCalls] at hev <;> tauto

/-- Once the held secret is cleared, a successful conversation answers every
message with a NULL response. -/
theorem conversation_cleared :
    ∀ (msgs : List MsgStyle) (rs : List PamResponse),
      conversation none msgs = .ok rs → ∀ r ∈ rs, r.resp = none := by
  intro msgs
  induction msgs with
  | nil =>
    intro rs h
    simp only [conversation, Except.ok.injEq] at h
    subst h
    simp
  | cons m rest ih =>
    intro rs h
    unfold conversation at h
    cases m <;> simp only [answerMsg] at h <;>
      [skip; skip; skip; skip; exact absurd h (by simp)] <;>
      (cases hrec : conversation none rest with
        | error e => rw [hrec] at h; exact absurd h (by simp)
        | ok rs' =>
          rw [hrec] at h
          simp only [Except.ok.injEq] at h
          subst h
          intro r hr
          rcases List.mem_cons.mp hr with rfl | hr'
          · rfl
          · exact ih rs' hrec r hr')

/-! ## Claim theorems: PAM session -/

/-- C2: `open_session` returns an `AuthUserInfo` only when `pam_start`,
`pam_authenticate`, `pam_acct_mgmt`, `pam_setcred` and `pam_open_session`
all returned `PAM_SUCCESS`, performed in exactly that order; whenever any of
these steps fails the result is an error, so no partially-authenticated
value is ever produced. -/
theorem open_session_requires_full_pam_success (u s : String) (pw : Secret)
    (o : PamOracle) :
    (∀ info, (open_session u s pw o).1 = .ok info →
      o.startRet = PAM_SUCCESS ∧ o.authRet = PAM_SUCCESS ∧ o.acctRet = PAM_SUCCESS ∧
      o.setcredRet = PAM_SUCCESS ∧ o.openRet = PAM_SUCCESS ∧
      (open_session u s pw o).2 = fullCalls pw) ∧
    ((o.startRet ≠ PAM_SUCCESS ∨ o.authRet ≠ PAM_SUCCESS ∨ o.acctRet ≠ PAM_SUCCESS ∨
        o.setcredRet ≠ PAM_SUCCESS ∨ o.openRet ≠ PAM_SUCCESS) →
      ∃ e, (open_session u s pw o).1 = .error e) := by
  constructor
  · intro info hok
    obtain ⟨_, _, h1, h2, h3, h4, h5, htr, _, _⟩ := open_session_ok_inv hok
    exact ⟨h1, h2, h3, h4, h5, htr⟩
  · intro hfail
    cases hres : (open_session u s pw o).1 with
    | error e => exact ⟨e, rfl⟩
    | ok info =>
      obtain ⟨_, _, h1, h2, h3, h4, h5, _, _, _⟩ := open_session_ok_inv hres
      rcases hfail with h | h | h | h | h <;> simp_all

/-- Oracle of a run whose `pam_start` fails with `PAM_AUTH_ERR` (7). -/
def oracleStartFail : PamOracle :=
  { startRet := 7, authRet := 0, acctRet := 0, setcredRet := 0, openRet := 0,
    envList := [], user := none }

theorem open_session_requires_full_pam_success_witness :
    ∃ e, (open_session "alice" "lemurs" ['p'] oracleStartFail).1 = .error e :=
  (open_session_requires_full_pam_success "alice" "lemurs" ['p'] oracleStartFail).2
    (Or.inl (by decide))

/-- C3: in every execution in which `pam_authenticate` succeeds, the held
secret is cleared before any later PAM call — each `pam_acct_mgmt`,
`pam_setcred` and `pam_open_session` call in the trace sees an empty
conversation password — and the conversation callback over a cleared
password answers every prompt with a NULL response, never the original
secret. -/
theorem secret_cleared_after_authenticate (u s : String) (pw : Secret) (o : PamOracle)
    (_hauth : o.authRet = PAM_SUCCESS) :
    (∀ p, PamEvent.acctMgmt p ∈ (open_session u s pw o).2 → p = none) ∧
    (∀ p, PamEvent.setcred p ∈ (open_session u s pw o).2 → p = none) ∧
    (∀ p, PamEvent.openSession p ∈ (open_session u s pw o).2 → p = none) ∧
    (∀ msgs rs, conversation none msgs = .ok rs → ∀ r ∈ rs, r.resp = none) := by
  refine ⟨?_, ?_, ?_, conversation_cleared⟩ <;>
    (intro p hp;
     rcases open_session_trace_mem u s pw o _ hp with h | h | h | h | h | h | h <;>
       simp_all)

/-- Oracle of a fully successful run against the NSS user `posixAlice`. -/
def posixAlice : PosixUser :=
  { uid := 1000, primaryGid := 1000, groups := some [1000, 27],
    homeDir := some "/home/alice", shell := some "/bin/sh" }

def oracleAllOk : PamOracle :=
  { startRet := 0, authRet := 0, acctRet := 0, setcredRet := 0, openRet := 0,
    envList := [], user := some posixAlice }

theorem secret_cleared_after_authenticate_witness :
    (none : Option Secret) = none :=
  (secret_cleared_after_authenticate "alice" "lemurs" ['p'] oracleAllOk (by decide)).1
    none (by decide)

/-- C6 (amended): every failing PAM status in `open_session` maps into the
closed `AuthenticationError` enumeration, but only the `pam_setcred` step
distinguishes status codes — `PAM_CRED_UNAVAIL` and `PAM_CRED_EXPIRED` get
their dedicated variants and every other code surfaces as `Other(code)`
carrying that exact code; failures of `pam_authenticate` and `pam_acct_mgmt`
map to `AccountValidation` and failures of `pam_open_session` to
`SessionOpen`, regardless of the code. -/
theorem pam_error_code_mapping (u s : String) (pw : Secret) (o : PamOracle)
    (hu : containsNul u = false) (hs : containsNul s = false)
    (h1 : o.startRet = PAM_SUCCESS) :
    (o.authRet ≠ PAM_SUCCESS →
      (open_session u s pw o).1 = .error .AccountValidation) ∧
    (o.authRet = PAM_SUCCESS → o.acctRet ≠ PAM_SUCCESS →
      (open_session u s pw o).1 = .error .AccountValidation) ∧
    (o.authRet = PAM_SUCCESS → o.acctRet = PAM_SUCCESS → o.setcredRet ≠ PAM_SUCCESS →
      (open_session u s pw o).1 =
        (if o.setcredRet = PAM_CRED_UNAVAIL then .error .CredUnavailable
         else if o.setcredRet = PAM_CRED_EXPIRED then .error .CredExpired
         else .error (.Other o.setcredRet))) ∧
    (o.authRet = PAM_SUCCESS → o.acctRet = PAM_SUCCESS → o.setcredRet ≠ PAM_SUCCESS →
      o.setcredRet ≠ PAM_CRED_UNAVAIL → o.setcredRet ≠ PAM_CRED_EXPIRED →
      (open_session u s pw o).1 = .error (.Other o.setcredRet)) ∧
    (o.authRet = PAM_SUCCESS → o.acctRet = PAM_SUCCESS → o.setcredRet = PAM_SUCCESS →
      o.openRet ≠ PAM_SUCCESS → (open_session u s pw o).1 = .error .SessionOpen) := by
  refine ⟨?_, ?_, ?_, ?_, ?_⟩
  · intro h2; rw [open_session_authFail pw o hu hs h1 h2]
  · intro h2 h3; rw [open_session_acctFail pw o hu hs h1 h2 h3]
  · intro h2 h3 h4; rw [open_session_setcredFail pw o hu hs h1 h2 h3 h4]
  · intro h2 h3 h4 hne1 hne2
    rw [open_session_setcredFail pw o hu hs h1 h2 h3 h4]
    simp [hne1, hne2]
  · intro h2 h3 h4 h5; rw [open_session_openFail pw o hu hs h1 h2 h3 h4 h5]

/-- Oracle of a run whose `pam_setcred` fails with `PAM_CRED_ERR` (17), a
code with no dedicated variant. -/
def oracleSetcredErr : PamOracle :=
  { startRet := 0, authRet := 0, acctRet := 0, setcredRet := 17, openRet := 0,
    envList := [], user := none }

theorem pam_error_code_mapping_witness :
    (open_session "alice" "lemurs" ['p'] oracleSetcredErr).1 = .error (.Other 17) :=
  (pam_error_code_mapping "alice" "lemurs" ['p'] oracleSetcredErr
    (by decide) (by decide) (by decide)).2.2.2.1
    (by decide) (by decide) (by decide) (by decide) (by decide)

/-- Oracle of a run whose `pam_authenticate` fails with `PAM_SYSTEM_ERR` (4),
a code with no dedicated variant in the error enumeration. -/
def oracleAuthSysErr : PamOracle :=
  { startRet := 0, authRet := 4, acctRet := 0, setcredRet := 0, openRet := 0,
    envList := [], user := none }

/-- Counterexample to C6 as stated: when `pam_authenticate` fails with the
unmapped code 4, `open_session` reports `AccountValidation`, not `Other 4` —
so outside `pam_setcred`, unmapped codes do not surface as `Other(code)`. -/
theorem pam_authenticate_syserr_not_other :
    (open_session "alice" "lemurs" ['p'] oracleAuthSysErr).1 =
      .error .AccountValidation ∧
    AuthenticationError.AccountValidation ≠ .Other 4 := by
  constructor
  · rfl
  · simp

/-! ## Claim theorems: environment harvest -/

/-- A PAM-exported variable in its `pam_getenvlist` wire form `key=value`. -/
def encodeEnvPair (p : Secret × Secret) : Secret := p.1 ++ '=' :: p.2

theorem splitOnceEq_encode (k v : Secret) (hk : '=' ∉ k) :
    splitOnceEq (k ++ '=' :: v) = some (k, v) := by
  induction k with
  | nil => simp [splitOnceEq]
  | cons c rest ih =>
    have hc : ¬c = '=' := fun h => hk (by simp [h])
    have hrest : '=' ∉ rest := fun h => hk (List.mem_cons_of_mem _ h)
    simp [splitOnceEq, hc, ih hrest]

theorem insertEnv_fresh (m : List (Secret × Secret)) (k v : Secret)
    (hk : ∀ p ∈ m, p.1 ≠ k) : insertEnv m k v = m ++ [(k, v)] := by
  have hany : m.any (fun p => p.1 = k) = false := by
    rw [List.any_eq_false]
    intro p hp
    simpa using hk p hp
  simp [insertEnv, hany]

theorem harvest_aux (env : List (Secret × Secret)) :
    ∀ m : List (Secret × Secret), (env.map Prod.fst).Nodup →
      (∀ p ∈ env, '=' ∉ p.1) →
      (∀ p ∈ env, ∀ q ∈ m, q.1 ≠ p.1) →
      List.foldl harvestStep m (env.map encodeEnvPair) = m ++ env := by
  induction env with
  | nil => intro m _ _ _; simp
  | cons p rest ih =>
    intro m hnd hne hfresh
    obtain ⟨k, v⟩ := p
    rw [List.map_cons] at hnd
    have hknotin : k ∉ rest.map Prod.fst := (List.nodup_cons.mp hnd).1
    have hndrest : (rest.map Prod.fst).Nodup := (List.nodup_cons.mp hnd).2
    have hk : '=' ∉ k := hne (k, v) (by simp)
    have hstep : harvestStep m (encodeEnvPair (k, v)) = m ++ [(k, v)] := by
      rw [harvestStep, encodeEnvPair]
      simp only
      rw [splitOnceEq_encode k v hk]
      exact insertEnv_fresh m k v (fun q hq => hfresh (k, v) (by simp) q hq)
    simp only [List.map_cons, List.foldl_cons, hstep]
    rw [ih (m ++ [(k, v)]) hndrest (fun q hq => hne q (by simp [hq])) ?_]
    · simp
    · intro q hq r hr
      rcases List.mem_append.mp hr with hr | hr
      · exact hfresh q (by simp [hq]) r hr
      · simp only [List.mem_singleton] at hr
        subst hr
        intro hcontra
        simp only at hcontra
        exact hknotin (by rw [hcontra]; exact List.mem_map_of_mem Prod.fst hq)

/-- C7: the environment map carried by a successful authentication result is
exactly the set of PAM-exported `key=value` pairs: when `pam_getenvlist`
yields the wire encodings of `env` (distinct keys, keys without `=`), the
`pamEnv` of the returned `AuthUserInfo` is exactly `env`, with no pair lost
or altered. -/
theorem harvested_env_exact (u s : String) (pw : Secret) (o : PamOracle)
    (env : List (Secret × Secret)) (info : AuthUserInfo)
    (hnd : (env.map Prod.fst).Nodup)
    (hne : ∀ p ∈ env, '=' ∉ p.1)
    (henv : o.envList = env.map encodeEnvPair)
    (hok : (open_session u s pw o).1 = .ok info) :
    info.pamEnv = env := by
  obtain ⟨_, _, _, _, _, _, _, _, hpe, _⟩ := open_session_ok_inv hok
  rw [hpe, henv, harvestEnv, harvest_aux env [] hnd hne (by simp)]
  simp

def oracleEnvOk : PamOracle :=
  { startRet := 0, authRet := 0, acctRet := 0, setcredRet := 0, openRet := 0,
    envList := [['A', '=', '1']], user := some posixAlice }

def infoEnvOk : AuthUserInfo :=
  { authenticator := ⟨true, 0, none⟩, username := "alice", uid := 1000,
    primaryGid := 1000, allGids := [1000, 27], homeDir := "/home/alice",
    shell := "/bin/sh", pamEnv := [(['A'], ['1'])] }

theorem harvested_env_exact_witness : infoEnvOk.pamEnv = [(['A'], ['1'])] :=
  harvested_env_exact "alice" "lemurs" ['p'] oracleEnvOk [(['A'], ['1'])] infoEnvOk
    (by decide) (by decide) rfl rfl

/-- C8: once `pam_start` has succeeded, every exit of `open_session` leads to
exactly one `pam_end` over the whole lifecycle — immediately via the drop of
the local authenticator on error paths, or deferred to the drop of the
returned `AuthUserInfo` on the success path; never zero times, never twice. -/
theorem pam_end_called_exactly_once (u s : String) (pw : Secret) (o : PamOracle)
    (hu : containsNul u = false) (hs : containsNul s = false)
    (hstart : o.startRet = PAM_SUCCESS) :
    (sessionLifecycleTrace u s pw o).count PamEvent.pamEnd = 1 := by
  unfold sessionLifecycleTrace
  rcases open_session_shape u s pw o hu hs hstart with
    ⟨e, heq⟩ | ⟨e, heq⟩ | ⟨e, heq⟩ | ⟨e, heq⟩ | ⟨e, heq⟩ | ⟨i, heq, hval⟩
  · rw [heq]; simp [List.count_cons]
  · rw [heq]; simp [List.count_cons]
  · rw [heq]; simp [List.count_cons]
  · rw [heq]; simp [List.count_cons]
  · rw [heq]; simp [fullCalls, List.count_append, List.count_cons]
  · rw [heq]
    simp [fullCalls, dropAuthUserInfo, dropAuthenticator, hval, List.count_append,
      List.count_cons]

theorem pam_end_called_exactly_once_witness :
    (sessionLifecycleTrace "alice" "lemurs" ['p'] oracleAllOk).count PamEvent.pamEnd = 1 :=
  pam_end_called_exactly_once "alice" "lemurs" ['p'] oracleAllOk
    (by decide) (by decide) (by decide)

/-! ## Claim theorems: conversation callback -/

/-- Correct answer to one conversation message per the source: echo prompts
get the held secret (NULL once cleared), info and error messages get a NULL
response, and unknown styles have no correct answer. -/
def answeredCorrectly (password : Option Secret) : MsgStyle → PamResponse → Prop
  | .echoOff, r => r = ⟨password, 0⟩
  | .echoOn, r => r = ⟨password, 0⟩
  | .errorMsg, r => r = ⟨none, 0⟩
  | .textInfo, r => r = ⟨none, 0⟩
  | .other _, _ => False

/-- C9 (amended): a successful conversation answers each echo-off/echo-on
prompt with the held secret (NULL if cleared) and each info or error message
with a NULL response — not empty text — and whenever any message has an
unknown style the whole conversation aborts with `PAM_CONV_ERR`. -/
theorem conversation_answers (password : Option Secret) (msgs : List MsgStyle) :
    (∀ rs, conversation password msgs = .ok rs →
      List.Forall₂ (answeredCorrectly password) msgs rs) ∧
    ((∃ m ∈ msgs, ∃ c, m = .other c) →
      conversation password msgs = .error PAM_CONV_ERR) := by
  induction msgs with
  | nil =>
    constructor
    · intro rs h
      simp only [conversation, Except.ok.injEq] at h
      subst h
      exact List.Forall₂.nil
    · rintro ⟨m, hm, _⟩
      simp at hm
  | cons m rest ih =>
    constructor
    · intro rs h
      unfold conversation at h
      cases hm : answerMsg password m with
      | none => rw [hm] at h; exact absurd h (by simp)
      | some r =>
        rw [hm] at h
        cases hrec : conversation password rest with
        | error e => rw [hrec] at h; exact absurd h (by simp)
        | ok rs' =>
          rw [hrec] at h
          simp only [Except.ok.injEq] at h
          subst h
          refine List.Forall₂.cons ?_ (ih.1 rs' hrec)
          cases m <;> simp [answerMsg] at hm <;> simp [answeredCorrectly, ← hm]
    · rintro ⟨m', hm', c, hc⟩
      rcases List.mem_cons.mp hm' with rfl | hmem
      · subst hc
        simp [conversation, answerMsg]
      · unfold conversation
        cases hm : answerMsg password m with
        | none => rfl
        | some r => rw [ih.2 ⟨m', hmem, c, hc⟩]

theorem conversation_answers_witness :
    List.Forall₂ (answeredCorrectly (some ['p']))
      [MsgStyle.echoOff, MsgStyle.textInfo] [⟨some ['p'], 0⟩, ⟨none, 0⟩] :=
  (conversation_answers (some ['p']) [MsgStyle.echoOff, MsgStyle.textInfo]).1 _ rfl

/-- Counterexample to C9 as stated: an info message is answered with a NULL
response (`resp = none`), not with empty text (`resp = some ""`). -/
theorem textinfo_response_is_null :
    conversation (some ['p']) [MsgStyle.textInfo] = .ok [⟨none, 0⟩] ∧
    (⟨none, 0⟩ : PamResponse) ≠ ⟨some [], 0⟩ :=
  ⟨rfl, by simp⟩

/-! ## Claim theorems: privilege drop -/

/-- C1 (amended): for every spawn that installs the privilege-drop pre-exec
hook — the session children (TTY shell, Wayland compositor) built through
`lower_command_permissions_to_user` — the hook performs `setgroups` with the
identity's full supplementary-gid set, then `setgid` with the primary gid,
then `setuid`, in exactly that order — the attempted-call trace is always an
initial segment of that sequence — and when step i fails no later step is
attempted, the hook returns an error, and the target program is never
executed; only when all three succeed does the target run. -/
theorem privilege_drop_order_and_abort (info : AuthUserInfo) (o : SyscallOracle) :
    (preExecDrop info o).2 = (privSeq info).take (preExecDrop info o).2.length ∧
    (o.setgroupsErr.isSome →
      (preExecDrop info o).2 = [.setgroups info.allGids] ∧
      childExecutesTarget info o = false) ∧
    (o.setgroupsErr = none → o.setgidErr.isSome →
      (preExecDrop info o).2 = [.setgroups info.allGids, .setgid info.primaryGid] ∧
      childExecutesTarget info o = false) ∧
    (o.setgroupsErr = none → o.setgidErr = none → o.setuidErr.isSome →
      (preExecDrop info o).2 = privSeq info ∧
      childExecutesTarget info o = false) ∧
    (o.setgroupsErr = none → o.setgidErr = none → o.setuidErr = none →
      (preExecDrop info o).1 = .ok () ∧ (preExecDrop info o).2 = privSeq info ∧
      childExecutesTarget info o = true) := by
  rcases o with ⟨g, gi, ui⟩
  cases g <;> cases gi <;> cases ui <;>
    simp [preExecDrop, privSeq, childExecutesTarget]

def infoAlice : AuthUserInfo :=
  { authenticator := ⟨true, 0, none⟩, username := "alice", uid := 1000,
    primaryGid := 1000, allGids := [1000, 27], homeDir := "/home/alice",
    shell := "/bin/sh", pamEnv := [] }

def oracleGroupsFail : SyscallOracle := ⟨some "EPERM", none, none⟩

theorem privilege_drop_order_and_abort_witness :
    (preExecDrop infoAlice oracleGroupsFail).2 = [.setgroups infoAlice.allGids] ∧
    childExecutesTarget infoAlice oracleGroupsFail = false :=
  (privilege_drop_order_and_abort infoAlice oracleGroupsFail).2.1 (by decide)

/-- Syscalls the forked X-server child of `setup_x` performs before `exec`
(x.rs lines 132-155): the display-server `Command` is built and spawned with
no `pre_exec` hook at all — `lower_command_permissions_to_user` is never
applied to it — so the child attempts no privilege-drop syscall and reaches
`exec` unconditionally. -/
def xserverChildPrivCalls : List PrivStep := []

/-- Counterexample to C1 as stated: the display-server child spawn performs
none of the three privilege-drop steps — its pre-exec syscall trace is
empty rather than the mandatory `setgroups`/`setgid`/`setuid` sequence the
claim requires of every session-or-display-server spawn. -/
theorem xserver_spawn_no_privilege_drop :
    xserverChildPrivCalls = [] ∧ xserverChildPrivCalls ≠ privSeq infoAlice := by
  constructor
  · rfl
  · simp [xserverChildPrivCalls, privSeq]

/-! ## Claim theorems: display-server launch -/

/-- Oracle of a `setup_x` run in which every step up to and including the
`pthread_sigmask(SIG_BLOCK)` succeeds and `signalfd` creation then fails
(for example because the process is out of file descriptors). -/
def sigfdFailOracle : XOracle :=
  { displayVar := some ":1", vtnrVar := some "2", homeVar := some "/root",
    xauthCmdOk := true, xauthPathUtf8 := true, blockOk := true, signalFdOk := false,
    spawnOk := true, timeoutSecs := 10, loopEvents := [], unblockOk := true }

/-- C4 refuted by the code: on the `SignalFdCreation` error return of
`setup_x`, `SIGUSR1` — unblocked on entry — is left blocked, because that
path (x.rs lines 129-130) returns without the mask restore every other
post-block exit performs. -/
theorem setup_x_sigfd_failure_leaves_usr1_blocked :
    ∃ st : XState,
      setup_x_model false sigfdFailOracle = some (.error .SignalFdCreation, st) ∧
      st.usr1Blocked = true :=
  ⟨⟨true, false⟩, rfl, rfl⟩

/-- Whether a poll outcome makes the wait loop break successfully (a read
`SIGUSR1` from the signalfd). -/
def pollBreaks : PollOutcome → Bool
  | .ready signo => decide (signo = SIGUSR1)
  | _ => false

/-- An iteration that decides nothing: the timeout has not fired, the poll
neither delivered `SIGUSR1` nor failed fatally, and the child is running. -/
def quietEvent (t : Nat) (ev : LoopEvent) : Bool :=
  (decide (t = 0) || decide (ev.elapsedMs < t * 1000)) &&
  (match ev.poll with
   | .fatal => false
   | .ready signo => !(decide (signo = SIGUSR1))
   | _ => true) &&
  !ev.childExited

/-- The loop-head timeout test cannot fire when either no timeout is
configured or the elapsed time is still below the configured bound. -/
theorem xloop_no_timeout_cond (t : Nat) (ev : LoopEvent)
    (hnt : t = 0 ∨ ev.elapsedMs < t * 1000) :
    ¬((if t = 0 then 1000000
        else if t * 1000 ≤ ev.elapsedMs then 0
        else t * 1000 - ev.elapsedMs) = 0 ∧ t ≠ 0) := by
  by_cases ht : t = 0
  · simp [ht]
  · rcases hnt with ht' | hlt
    · exact absurd ht' ht
    · have hle : ¬t * 1000 ≤ ev.elapsedMs := by omega
      simp only [ht, if_neg, if_false, hle, ne_eq, not_false_eq_true, and_true]
      omega

theorem xloop_quiet_cons (t : Nat) (ev : LoopEvent) (rest : List LoopEvent)
    (h : quietEvent t ev = true) : xloop t (ev :: rest) = xloop t rest := by
  simp only [quietEvent, Bool.and_eq_true, Bool.or_eq_true, decide_eq_true_eq,
    Bool.not_eq_true'] at h
  obtain ⟨⟨h1, h2⟩, h3⟩ := h
  simp only [xloop]
  rw [if_neg (xloop_no_timeout_cond t ev h1)]
  cases hpl : ev.poll <;> rw [hpl] at h2 <;> simp_all

theorem xloop_append_quiet (t : Nat) (pre l : List LoopEvent)
    (hq : ∀ e ∈ pre, quietEvent t e = true) :
    xloop t (pre ++ l) = xloop t l := by
  induction pre with
  | nil => rfl
  | cons e pre ih =>
    rw [List.cons_append, xloop_quiet_cons t e _ (hq e (by simp))]
    exact ih (fun e' he' => hq e' (by simp [he']))

/-- C5: classification of the readiness wait: after any quiet iterations, a
`SIGUSR1` read before the timeout yields `ready` without killing the child;
a child found exited (with no break and no fatal poll) yields
`prematureExit` without killing; with a nonzero configured timeout, elapsed
time reaching `timeout*1000` ms yields `timedOut` and the child is killed;
and with timeout 0 the loop can never return `timedOut`. -/
theorem xloop_classification (t : Nat) :
    (∀ pre ev rest, (∀ e ∈ pre, quietEvent t e = true) →
      (t = 0 ∨ ev.elapsedMs < t * 1000) → ev.poll = .ready SIGUSR1 →
      xloop t (pre ++ ev :: rest) = some (.ready, false)) ∧
    (∀ pre ev rest, (∀ e ∈ pre, quietEvent t e = true) →
      (t = 0 ∨ ev.elapsedMs < t * 1000) →
      pollBreaks ev.poll = false → ev.poll ≠ .fatal → ev.childExited = true →
      xloop t (pre ++ ev :: rest) = some (.prematureExit, false)) ∧
    (∀ pre ev rest, t ≠ 0 → (∀ e ∈ pre, quietEvent t e = true) →
      t * 1000 ≤ ev.elapsedMs →
      xloop t (pre ++ ev :: rest) = some (.timedOut, true)) ∧
    (t = 0 → ∀ evs res, xloop t evs = some res → res.1 ≠ .timedOut) := by
  refine ⟨?_, ?_, ?_, ?_⟩
  · intro pre ev rest hq hnt hsig
    rw [xloop_append_quiet t pre _ hq]
    simp only [xloop]
    rw [if_neg (xloop_no_timeout_cond t ev hnt), hsig]
    simp
  · intro pre ev rest hq hnt hbrk hfat hce
    rw [xloop_append_quiet t pre _ hq]
    simp only [xloop]
    rw [if_neg (xloop_no_timeout_cond t ev hnt)]
    cases hpl : ev.poll <;> rw [hpl] at hbrk <;> simp_all [pollBreaks]
  · intro pre ev rest ht hq hel
    rw [xloop_append_quiet t pre _ hq]
    simp only [xloop]
    rw [if_pos ⟨by simp [ht, hel], ht⟩]
  · intro ht evs
    subst ht
    induction evs with
    | nil => intro res h; simp [xloop] at h
    | cons ev rest ih =>
      intro res h
      simp only [xloop] at h
      rw [if_neg (by simp)] at h
      cases hpl : ev.poll <;> rw [hpl] at h <;> dsimp only at h <;>
        (try split_ifs at h) <;>
        first
          | (cases Option.some.inj h; simp)
          | exact ih res h

theorem xloop_classification_witness :
    xloop 1 ([⟨0, PollOutcome.timeout, false⟩] ++
      ⟨100, PollOutcome.ready SIGUSR1, false⟩ :: []) = some (.ready, false) :=
  (xloop_classification 1).1 [⟨0, PollOutcome.timeout, false⟩]
    ⟨100, PollOutcome.ready SIGUSR1, false⟩ [] (by decide) (by decide) rfl

/-! ## Claim theorems: environment list -/

/-- C10: `get_envs` never returns an empty list — when the TTY shell is
configured a `Terminal` shell entry comes first, and when it is not and
neither the Wayland sessions directory nor the scripts directory contributes
an entry, a fallback `Terminal` shell entry is produced. -/
theorem get_envs_never_empty (inc : Bool)
    (ws : Option (List (Except String (String × String))))
    (sc : Option (List ScriptEntry)) :
    get_envs inc ws sc ≠ [] ∧
    (inc = true →
      (get_envs inc ws sc).head? = some ("Terminal", PostLoginEnvironment.Shell)) ∧
    (inc = false → sessionEntries ws = [] → scriptEnvEntries sc = [] →
      get_envs inc ws sc = [("Terminal", PostLoginEnvironment.Shell)]) := by
  refine ⟨?_, ?_, ?_⟩
  · by_cases he : (collectedEnvs inc ws sc).isEmpty = true
    · simp [get_envs, he]
    · simp only [get_envs, he, if_false, Bool.false_eq_true]
      exact fun h => he (by rw [h]; rfl)
  · intro h
    subst h
    simp [get_envs, collectedEnvs]
  · intro h1 h2 h3
    subst h1
    simp [get_envs, collectedEnvs, h2, h3]

theorem get_envs_never_empty_witness :
    get_envs false none none = [("Terminal", PostLoginEnvironment.Shell)] :=
  (get_envs_never_empty false none none).2.2 rfl rfl rfl

end Lemurs
